import Mathlib

/-!
Formal model of the tool-augmented generation core of the ragchatbot
backend: `search_tools.py` (Tool, CourseSearchTool, CourseOutlineTool,
ToolManager) and `ai_generator.py` (AIGenerator.generate_response).

Modelling conventions:
* Python dicts keyed by strings are insertion-ordered association lists.
* `None`-able values are `Option`; Python truthiness of a string is
  "`some s` with `s ≠ \x22\x22`", of an int "`some n` with `n ≠ 0`", of a
  list "non-empty".
* A Python function that may raise returns `Except String α`; the
  exception's `str(e)` is the `String` payload.
-/

/-- A provenance entry, the dict `{"text": ..., "link": ...}` built by the
tools for the UI. -/
structure Source where
  text : String
  link : Option String
deriving DecidableEq

/-- Keyword arguments passed to a tool's `execute` (values opaque text). -/
def Args : Type := List (String × String)

/-- A registered tool as `ToolManager` sees it: the `"name"` entry of its
`get_tool_definition()` result (`none` when the key is absent), its
`execute` method (which may raise), and its `last_sources` attribute
(`none` models a tool object without that attribute). -/
structure Tool where
  defName : Option String
  run : Args → Except String String
  last_sources : Option (List Source)

/-- `ToolManager`: `self.tools` is a name-keyed, insertion-ordered dict. -/
structure ToolManager where
  tools : List (String × Tool)

/-- Association-list lookup, modelling `self.tools[tool_name]` /
`tool_name in self.tools`. -/
def lookupTool (name : String) : List (String × Tool) → Option Tool
  | [] => none
  | (k, t) :: rest => if k = name then some t else lookupTool name rest

/-- Python dict assignment `self.tools[tool_name] = tool`: replaces the
value in place if the key exists, else appends. -/
def dictInsert : List (String × Tool) → String → Tool → List (String × Tool)
  | [], k, v => [(k, v)]
  | (k', v') :: rest, k, v =>
      if k' = k then (k, v) :: rest else (k', v') :: dictInsert rest k v

/-- `ToolManager.register_tool`: reads the definition's name; raises
`ValueError` when the name is missing or empty (Python `if not tool_name`),
otherwise stores the tool under that name (dict assignment, which
overwrites an existing entry). -/
def ToolManager.register_tool (tm : ToolManager) (tool : Tool) :
    Except String ToolManager :=
  match tool.defName with
  | none => Except.error "Tool must have a 'name' in its definition"
  | some n =>
      if n = "" then Except.error "Tool must have a 'name' in its definition"
      else Except.ok ⟨dictInsert tm.tools n tool⟩

/-- `ToolManager.execute_tool`: unknown names yield the textual
"not found" result; otherwise the tool's `execute` is called with no
exception handling here, so a raising tool propagates (`Except.error`). -/
def ToolManager.execute_tool (tm : ToolManager) (tool_name : String)
    (args : Args) : Except String String :=
  match lookupTool tool_name tm.tools with
  | none => Except.ok ("Tool '" ++ tool_name ++ "' not found")
  | some t => t.run args

/-- The `try/except` around `tool_manager.execute_tool` inside
`AIGenerator._execute_tools_and_update_messages` (ai_generator.py
lines 86-102): a raised exception becomes the textual tool-result
content `"Tool execution failed: <message>"`. -/
def toolResultContent (tm : ToolManager) (name : String) (args : Args) :
    String :=
  match tm.execute_tool name args with
  | Except.ok r => r
  | Except.error e => "Tool execution failed: " ++ e

/-- Helper for `ToolManager.get_last_sources`: scan the tools in
registration order, returning the first present-and-non-empty
`last_sources` (Python `if hasattr(tool, 'last_sources') and
tool.last_sources`). -/
def firstSources : List (String × Tool) → List Source
  | [] => []
  | (_, t) :: rest =>
      match t.last_sources with
      | some ss => if ss.isEmpty then firstSources rest else ss
      | none => firstSources rest

/-- `ToolManager.get_last_sources`. -/
def ToolManager.get_last_sources (tm : ToolManager) : List Source :=
  firstSources tm.tools

/-- `ToolManager.reset_sources`: sets `last_sources = []` on every tool
that has the attribute. -/
def ToolManager.reset_sources (tm : ToolManager) : ToolManager :=
  ⟨tm.tools.map (fun p =>
    (p.1, { p.2 with last_sources := p.2.last_sources.map (fun _ => []) }))⟩

/-- The claim's (and spec's) reading of `get_last_sources`: "returns
accumulated Sources from all registered tools that expose sources",
i.e. the concatenation over all tools in registration order.  Written
from the spec's words, for comparison with the source's function. -/
def accumulatedSources (tm : ToolManager) : List Source :=
  tm.tools.foldr (fun p acc => p.2.last_sources.getD [] ++ acc) []

/-- A tool whose `execute` returns normally. -/
def okTool (name out : String) (ss : List Source) : Tool :=
  ⟨some name, fun _ => Except.ok out, some ss⟩

/-- A tool whose `execute` raises with message `msg`. -/
def raisingTool (name msg : String) : Tool :=
  ⟨some name, fun _ => Except.error msg, some []⟩

/-- Registry holding one raising tool, for C3. -/
def tmC3 : ToolManager := ⟨[("broken", raisingTool "broken" "boom")]⟩

/-- Registry with two tools that both hold non-empty sources, for C6. -/
def tmC6 : ToolManager :=
  ⟨[("a", okTool "a" "ra" [⟨"sA", none⟩]),
    ("b", okTool "b" "rb" [⟨"sB", none⟩])]⟩

/-- Tools sharing the definition name "x", and a registry already holding
the first of them, for C7. -/
def toolC7a : Tool := ⟨some "x", fun _ => Except.ok "a", none⟩

/-- Second tool named "x" (see `toolC7a`). -/
def toolC7b : Tool := ⟨some "x", fun _ => Except.ok "b", none⟩

/-- A tool whose definition has no name, for C7. -/
def toolC7n : Tool := ⟨none, fun _ => Except.ok "n", none⟩

/-- Registry already holding `toolC7a` under "x". -/
def tmC7 : ToolManager := ⟨[("x", toolC7a)]⟩

/-- If every tool in `l` lacks sources or holds an empty list, the scan
returns `[]`. -/
theorem firstSources_eq_nil_of_all_empty (l : List (String × Tool))
    (h : ∀ p ∈ l, p.2.last_sources = none ∨ p.2.last_sources = some []) :
    firstSources l = [] := by
  induction l with
  | nil => rfl
  | cons p rest ih =>
      obtain ⟨k, t⟩ := p
      have h0 : t.last_sources = none ∨ t.last_sources = some [] :=
        h _ (List.mem_cons_self _ _)
      rcases h0 with h0 | h0 <;>
        simp [firstSources, h0, ih fun q hq => h q (List.mem_cons_of_mem _ hq)]

/-- Tools with absent or empty sources at the front are skipped by the scan. -/
theorem firstSources_append_of_all_empty (pre rest : List (String × Tool))
    (h : ∀ p ∈ pre, p.2.last_sources = none ∨ p.2.last_sources = some []) :
    firstSources (pre ++ rest) = firstSources rest := by
  induction pre with
  | nil => rfl
  | cons p pre ih =>
      obtain ⟨k, t⟩ := p
      have h0 : t.last_sources = none ∨ t.last_sources = some [] :=
        h _ (List.mem_cons_self _ _)
      rcases h0 with h0 | h0 <;>
        simp [firstSources, h0, ih fun q hq => h q (List.mem_cons_of_mem _ hq)]

/-- Looking up the freshly inserted key returns the inserted tool. -/
theorem lookupTool_dictInsert (l : List (String × Tool)) (k : String)
    (v : Tool) : lookupTool k (dictInsert l k v) = some v := by
  induction l with
  | nil => simp [dictInsert, lookupTool]
  | cons p rest ih =>
      obtain ⟨k', v'⟩ := p
      by_cases hk : k' = k
      · simp [dictInsert, hk, lookupTool]
      · simp [dictInsert, hk, lookupTool, ih]

/-- Inserting an already-present key keeps the dict's size. -/
theorem dictInsert_length_of_mem (l : List (String × Tool)) (k : String)
    (v : Tool) (h : (lookupTool k l).isSome = true) :
    (dictInsert l k v).length = l.length := by
  induction l with
  | nil => simp [lookupTool] at h
  | cons p rest ih =>
      obtain ⟨k', v'⟩ := p
      by_cases hk : k' = k
      · simp [dictInsert, hk]
      · simp only [lookupTool, if_neg hk] at h
        simp [dictInsert, hk, ih h]

/-- C3 counterexample: the registry's dispatch does NOT catch a raising
tool — `ToolManager.execute_tool` re-raises (`Except.error`), so an
exception does escape the registry boundary at this concrete input. -/
theorem c3_exception_escapes_registry :
    tmC3.execute_tool "broken" [] = Except.error "boom" := rfl

/-- C3 (amended): `execute_tool` returns the textual "not found" result
for unknown names; a raising tool's exception propagates out of
`execute_tool` itself, and it is the generator's tool-execution loop
(`_execute_tools_and_update_messages`) that catches it and converts it
to the textual tool result `"Tool execution failed: <message>"`. -/
theorem c3_dispatch_error_containment :
    (∀ (tm : ToolManager) (name : String) (args : Args),
        lookupTool name tm.tools = none →
        tm.execute_tool name args =
          Except.ok ("Tool '" ++ name ++ "' not found"))
  ∧ (∀ (tm : ToolManager) (name : String) (args : Args) (t : Tool)
        (e : String),
        lookupTool name tm.tools = some t → t.run args = Except.error e →
        tm.execute_tool name args = Except.error e)
  ∧ (∀ (tm : ToolManager) (name : String) (args : Args) (e : String),
        tm.execute_tool name args = Except.error e →
        toolResultContent tm name args = "Tool execution failed: " ++ e) := by
  refine ⟨?_, ?_, ?_⟩
  · intro tm name args h
    simp [ToolManager.execute_tool, h]
  · intro tm name args t e h ht
    simp [ToolManager.execute_tool, h, ht]
  · intro tm name args e h
    simp [toolResultContent, h]

/-- C3 witness: the amended statement evaluated on the concrete registry
`tmC3` and a missing name. -/
theorem c3_dispatch_error_containment_witness :
    tmC3.execute_tool "missing" [] =
      Except.ok ("Tool '" ++ "missing" ++ "' not found")
  ∧ tmC3.execute_tool "broken" [] = Except.error "boom"
  ∧ toolResultContent tmC3 "broken" [] =
      "Tool execution failed: " ++ "boom" := by
  refine ⟨?_, ?_, ?_⟩
  · exact c3_dispatch_error_containment.1 tmC3 "missing" [] rfl
  · exact c3_dispatch_error_containment.2.1 tmC3 "broken" []
      (raisingTool "broken" "boom") "boom" rfl rfl
  · exact c3_dispatch_error_containment.2.2 tmC3 "broken" [] "boom" rfl

/-- C6 counterexample: with two tools both holding non-empty sources,
`get_last_sources` returns only the first tool's sources, not the
accumulation over all tools that the claim describes. -/
theorem c6_not_accumulated :
    tmC6.get_last_sources = [⟨"sA", none⟩]
  ∧ accumulatedSources tmC6 = [⟨"sA", none⟩, ⟨"sB", none⟩]
  ∧ tmC6.get_last_sources ≠ accumulatedSources tmC6 := by
  refine ⟨rfl, rfl, by decide⟩

/-- C6 (amended): `get_last_sources` returns the `last_sources` of the
FIRST tool in registration order whose attribute is present and
non-empty (and `[]` when there is none); `reset_sources` clears the
attribute on every registered tool that has it. -/
theorem c6_sources_contract (tm : ToolManager) :
    (∀ p ∈ (tm.reset_sources).tools,
        p.2.last_sources = none ∨ p.2.last_sources = some [])
  ∧ ((∀ p ∈ tm.tools,
        p.2.last_sources = none ∨ p.2.last_sources = some []) →
        tm.get_last_sources = [])
  ∧ (∀ (pre post : List (String × Tool)) (n : String) (t : Tool)
        (ss : List Source),
        tm.tools = pre ++ (n, t) :: post →
        (∀ p ∈ pre, p.2.last_sources = none ∨ p.2.last_sources = some []) →
        t.last_sources = some ss → ss ≠ [] →
        tm.get_last_sources = ss) := by
  refine ⟨?_, ?_, ?_⟩
  · intro p hp
    simp only [ToolManager.reset_sources, List.mem_map] at hp
    obtain ⟨q, _, rfl⟩ := hp
    cases q.2.last_sources <;> simp
  · intro h
    exact firstSources_eq_nil_of_all_empty tm.tools h
  · intro pre post n t ss htools hpre hss hne
    unfold ToolManager.get_last_sources
    rw [htools, firstSources_append_of_all_empty pre _ hpre]
    simp [firstSources, hss, List.isEmpty_iff, hne]

/-- C6 witness: the amended statement evaluated on `tmC6`, whose first
tool holds the non-empty source list `[⟨"sA", none⟩]`. -/
theorem c6_sources_contract_witness :
    tmC6.get_last_sources = [⟨"sA", none⟩]
  ∧ (∀ p ∈ (tmC6.reset_sources).tools,
        p.2.last_sources = none ∨ p.2.last_sources = some []) := by
  refine ⟨?_, (c6_sources_contract tmC6).1⟩
  exact (c6_sources_contract tmC6).2.2 []
    [("b", okTool "b" "rb" [⟨"sB", none⟩])] "a"
    (okTool "a" "ra" [⟨"sA", none⟩]) [⟨"sA", none⟩] rfl
    (by simp) rfl (by simp)

/-- C7 counterexample: registering a second tool whose definition name
"x" collides with an already-registered name does NOT fail — the dict
assignment silently overwrites the earlier tool. -/
theorem c7_duplicate_overwrites :
    tmC7.register_tool toolC7b = Except.ok ⟨[("x", toolC7b)]⟩ := rfl

/-- C7 (amended): registering a tool whose definition lacks a name (or
has an empty name) raises `ValueError` and, the exception being raised
before any assignment, leaves the registry's map unchanged; registering
a colliding name succeeds, overwrites the entry in place, and keeps the
map's size. -/
theorem c7_register_contract (tm : ToolManager) (tool : Tool) :
    ((tool.defName = none ∨ tool.defName = some "") →
        tm.register_tool tool =
          Except.error "Tool must have a 'name' in its definition")
  ∧ (∀ n, tool.defName = some n → n ≠ "" →
        tm.register_tool tool = Except.ok ⟨dictInsert tm.tools n tool⟩)
  ∧ (∀ n, tool.defName = some n → n ≠ "" →
        lookupTool n (dictInsert tm.tools n tool) = some tool)
  ∧ (∀ n, tool.defName = some n → n ≠ "" →
        (lookupTool n tm.tools).isSome = true →
        (dictInsert tm.tools n tool).length = tm.tools.length) := by
  refine ⟨?_, ?_, ?_, ?_⟩
  · rintro (h | h) <;> simp [ToolManager.register_tool, h]
  · intro n hn hne
    simp [ToolManager.register_tool, hn, hne]
  · intro n hn hne
    exact lookupTool_dictInsert tm.tools n tool
  · intro n hn hne hmem
    exact dictInsert_length_of_mem tm.tools n tool hmem

/-- C7 witness: the amended statement evaluated on `tmC7` with the
nameless tool and with the colliding tool `toolC7b`. -/
theorem c7_register_contract_witness :
    tmC7.register_tool toolC7n =
      Except.error "Tool must have a 'name' in its definition"
  ∧ tmC7.register_tool toolC7b =
      Except.ok ⟨dictInsert tmC7.tools "x" toolC7b⟩
  ∧ lookupTool "x" (dictInsert tmC7.tools "x" toolC7b) = some toolC7b
  ∧ (dictInsert tmC7.tools "x" toolC7b).length = tmC7.tools.length := by
  refine ⟨?_, ?_, ?_, ?_⟩
  · exact (c7_register_contract tmC7 toolC7n).1 (Or.inl rfl)
  · exact (c7_register_contract tmC7 toolC7b).2.1 "x" rfl (by decide)
  · exact (c7_register_contract tmC7 toolC7b).2.2.1 "x" rfl (by decide)
  · exact (c7_register_contract tmC7 toolC7b).2.2.2 "x" rfl (by decide)
      (by decide)

/-- Truthiness of an optional Python string (`if s:`). -/
def optStrTruthy : Option String → Bool
  | some s => s != ""
  | none => false

/-- Truthiness of an optional Python int (`if n:`). -/
def optIntTruthy : Option Int → Bool
  | some n => n != 0
  | none => false

/-- Per-chunk metadata dict delivered with each search hit
(`meta.get('course_title')`, `meta.get('lesson_number')`,
`meta.get('lesson_link')`). -/
structure ChunkMeta where
  course_title : Option String
  lesson_number : Option Int
  lesson_link : Option String
deriving DecidableEq

/-- Modelled from the spec: `SearchResults` of the external search
collaborator (`vector_store.py` is not among the verified sources):
"search(query, optionalCourseNameFilter, optionalLessonNumberFilter) ->
SearchResults{documents, metadata per document, error|empty flag}". -/
structure SearchResults where
  documents : List String
  metadata : List ChunkMeta
  error : Option String
deriving DecidableEq

/-- Modelled from the spec: a `SearchResults` is empty when it carries no
documents. -/
def SearchResults.is_empty (r : SearchResults) : Bool := r.documents.isEmpty

/-- The trailing filter clause `CourseSearchTool.execute` builds for an
empty result set (`if course_name:` / `if lesson_number:` are Python
truthiness tests, so an empty course string or lesson number 0 adds no
clause). -/
def filterInfo (course_name : Option String) (lesson_number : Option Int) :
    String :=
  (if optStrTruthy course_name then
      " in course '" ++ course_name.getD "" ++ "'"
    else "")
  ++ (if optIntTruthy lesson_number then
      " in lesson " ++ toString (lesson_number.getD 0)
    else "")

/-- One source dict built by `CourseSearchTool._format_results`: text is
the course title, `" - Lesson <n>"` appended when a lesson number is
present, and the link set only when a lesson number is present and the
lesson link is truthy. -/
def chunkSource (meta : ChunkMeta) : Source :=
  match meta.lesson_number with
  | some n =>
      { text := meta.course_title.getD "unknown" ++ " - Lesson " ++ toString n,
        link := if optStrTruthy meta.lesson_link then meta.lesson_link
                else none }
  | none => { text := meta.course_title.getD "unknown", link := none }

/-- One formatted block of `CourseSearchTool._format_results`:
`[<course title>` + optional ` - Lesson <n>` + `]`, newline, passage. -/
def chunkEntry (doc : String) (meta : ChunkMeta) : String :=
  "[" ++ meta.course_title.getD "unknown"
    ++ (match meta.lesson_number with
        | some n => " - Lesson " ++ toString n
        | none => "")
    ++ "]" ++ "\n" ++ doc

/-- `CourseSearchTool._format_results`: the joined text plus the new
`last_sources` value the method stores (one source per zipped
document/metadata pair). -/
def format_results (results : SearchResults) : String × List Source :=
  let pairs := results.documents.zip results.metadata
  (String.intercalate "\n\n" (pairs.map fun p => chunkEntry p.1 p.2),
   pairs.map fun p => chunkSource p.2)

/-- `CourseSearchTool.execute` with the collaborator and the tool's
`last_sources` state made explicit: `store` stands for
`self.store.search`, `st` for the `last_sources` value before the call;
the result pairs the textual output with `last_sources` after the call.
A truthy error string is returned verbatim; an empty result set yields
the "No relevant content found" message; only the success path calls
`_format_results`, which overwrites `last_sources`. -/
def courseSearchExecute
    (store : String → Option String → Option Int → SearchResults)
    (st : List Source) (query : String) (course_name : Option String)
    (lesson_number : Option Int) : String × List Source :=
  let results := store query course_name lesson_number
  if optStrTruthy results.error then (results.error.getD "", st)
  else if results.is_empty then
    ("No relevant content found" ++ filterInfo course_name lesson_number
      ++ ".", st)
  else format_results results

/-- A collaborator that always reports an empty result set. -/
def emptyStore : String → Option String → Option Int → SearchResults :=
  fun _ _ _ => ⟨[], [], none⟩

/-- C8 counterexample: with course filter "X" and lesson filter 0 both
supplied and an error-free empty result set, the rendered text omits the
lesson clause (Python `if lesson_number:` is false at 0), so it is not
the claimed "No relevant content found in course 'X' in lesson 0.". -/
theorem c8_lesson_zero_clause_dropped :
    (courseSearchExecute emptyStore [] "q" (some "X") (some 0)).1
      = "No relevant content found in course 'X'."
  ∧ (courseSearchExecute emptyStore [] "q" (some "X") (some 0)).1
      ≠ "No relevant content found in course 'X' in lesson 0." :=
  ⟨rfl, by decide⟩

/-- C8 (amended): when the collaborator reports no error and an empty
result set, the output is "No relevant content found" plus one clause
per supplied TRUTHY filter (non-empty course name, non-zero lesson
number) and a trailing period; in particular with course filter `c ≠ ""`
and lesson filter `n ≠ 0` it is exactly
`"No relevant content found in course '<c>' in lesson <n>."`. -/
theorem c8_empty_results_render
    (store : String → Option String → Option Int → SearchResults)
    (st : List Source) (query : String) (c : String) (n : Int)
    (hc : c ≠ "") (hn : n ≠ 0)
    (herr : (store query (some c) (some n)).error = none)
    (hemp : (store query (some c) (some n)).is_empty = true) :
    (courseSearchExecute store st query (some c) (some n)).1
      = "No relevant content found in course '" ++ c ++ "' in lesson "
          ++ toString n ++ "." := by
  have e1 : ("No relevant content found" : String) ++ " in course '"
      = "No relevant content found in course '" := by decide
  have e2 : ("'" : String) ++ " in lesson " = "' in lesson " := by decide
  simp only [courseSearchExecute, filterInfo, optStrTruthy, optIntTruthy,
    herr, hemp, Option.getD_some, bne_iff_ne, ne_eq, hc, hn,
    not_false_eq_true, if_true, if_pos, Bool.false_eq_true, if_false]
  simp only [← String.append_assoc]
  rw [e1, String.append_assoc ("No relevant content found in course '" ++ c)
    "'" " in lesson ", e2]

/-- C8 witness: the amended render evaluated with course "X" and
lesson 2 against an empty result set. -/
theorem c8_empty_results_render_witness :
    (courseSearchExecute emptyStore [] "q" (some "X") (some 2)).1
      = "No relevant content found in course '" ++ "X" ++ "' in lesson "
          ++ toString (2 : Int) ++ "." :=
  c8_empty_results_render emptyStore [] "q" "X" 2 (by decide) (by decide)
    rfl rfl

/-- C10: `CourseSearchTool.execute` leaves `last_sources` unchanged
whenever the collaborator reports a (truthy) error or an empty result
set, and replaces it with the freshly formatted sources exactly on the
successful non-empty path. -/
theorem c10_last_sources_frame
    (store : String → Option String → Option Int → SearchResults)
    (st : List Source) (query : String) (course_name : Option String)
    (lesson_number : Option Int) :
    ((optStrTruthy (store query course_name lesson_number).error = true
        ∨ (store query course_name lesson_number).is_empty = true) →
      (courseSearchExecute store st query course_name lesson_number).2 = st)
  ∧ (optStrTruthy (store query course_name lesson_number).error = false →
      (store query course_name lesson_number).is_empty = false →
      (courseSearchExecute store st query course_name lesson_number).2
        = (format_results (store query course_name lesson_number)).2) := by
  constructor
  · rintro (h | h)
    · simp [courseSearchExecute, h]
    · cases hT : optStrTruthy (store query course_name lesson_number).error <;>
        simp [courseSearchExecute, hT, h]
  · intro h1 h2
    simp [courseSearchExecute, h1, h2]

/-- C10 witness: with an error-reporting collaborator the sources are
untouched. -/
theorem c10_last_sources_frame_witness :
    (courseSearchExecute (fun _ _ _ => ⟨[], [], some "Search error: down"⟩)
      [⟨"old", none⟩] "q" none none).2 = [⟨"old", none⟩] :=
  (c10_last_sources_frame (fun _ _ _ => ⟨[], [], some "Search error: down"⟩)
    [⟨"old", none⟩] "q" none none).1 (Or.inl rfl)

/-- One lesson dict inside a course's metadata
(`get_all_courses_metadata()` shape). -/
structure LessonMeta where
  lesson_number : Option Int
  lesson_title : Option String
  lesson_link : Option String
deriving DecidableEq

/-- One course metadata dict (`course_meta.get('title')`,
`'course_link'`, `'instructor'`, `'lessons'`). -/
structure CourseMeta where
  title : Option String
  course_link : Option String
  instructor : Option String
  lessons : Option (List LessonMeta)
deriving DecidableEq

/-- The sort key `lambda x: x.get('lesson_number', 0)` used by
`CourseOutlineTool._format_course_outline`. -/
def lessonKey (l : LessonMeta) : Int := l.lesson_number.getD 0

/-- Python's `sorted(lessons, key=...)` is the stable sort by the key;
insertion sort on the total preorder induced by the key is the stable
sort by that key, hence yields the same list. -/
def sortLessons (ls : List LessonMeta) : List LessonMeta :=
  List.insertionSort (fun a b => lessonKey a ≤ lessonKey b) ls

/-- How Python's f-string prints `lesson.get('lesson_number')`
(`None` when the key is absent). -/
def intOrNone : Option Int → String
  | some n => toString n
  | none => "None"

/-- One rendered lesson line `f"Lesson {lesson_num}: {lesson_title}"`. -/
def lessonLine (l : LessonMeta) : String :=
  "Lesson " ++ intOrNone l.lesson_number ++ ": "
    ++ l.lesson_title.getD "Untitled"

/-- The header parts of the outline: bolded title, then the course-link
and instructor lines, each only when the value is truthy. -/
def headerParts (m : CourseMeta) : List String :=
  ["**" ++ m.title.getD "Unknown Course" ++ "**"]
  ++ (if optStrTruthy m.course_link then
        ["Course Link: " ++ m.course_link.getD ""] else [])
  ++ (if optStrTruthy m.instructor then
        ["Instructor: " ++ m.instructor.getD ""] else [])

/-- The lessons part of the outline: section header plus one line per
lesson in key-sorted order, or the explicit no-lessons line. -/
def lessonSection (m : CourseMeta) : List String :=
  if (m.lessons.getD []).isEmpty then ["\nNo lessons found for this course."]
  else "\n**Lessons:**" :: (sortLessons (m.lessons.getD [])).map lessonLine

/-- All `outline_parts` accumulated by
`CourseOutlineTool._format_course_outline`. -/
def outlineParts (m : CourseMeta) : List String :=
  headerParts m ++ lessonSection m

/-- `CourseOutlineTool._format_course_outline`: the joined outline text
plus the single source `{"text": title, "link": course_link}` the method
stores in `last_sources`. -/
def format_course_outline (m : CourseMeta) : String × List Source :=
  (String.intercalate "\n" (outlineParts m),
   [{ text := m.title.getD "Unknown Course", link := m.course_link }])

instance : IsTotal LessonMeta (fun a b => lessonKey a ≤ lessonKey b) :=
  ⟨fun a b => le_total (lessonKey a) (lessonKey b)⟩

instance : IsTrans LessonMeta (fun a b => lessonKey a ≤ lessonKey b) :=
  ⟨fun _ _ _ hab hbc => le_trans hab hbc⟩

/-- The head character of an appended string is the head of its first
component. -/
theorem head?_append_of_head? (a b : String) (c : Char)
    (h : a.data.head? = some c) : (a ++ b).data.head? = some c := by
  rw [String.data_append]
  cases ha : a.data with
  | nil => rw [ha] at h; cases h
  | cons x xs => rw [ha] at h; simpa using h

/-- Strings whose first characters differ are distinct. -/
theorem heads_distinct {p q : String} {cp cq : Char}
    (hp : p.data.head? = some cp) (hq : q.data.head? = some cq)
    (hne : cp ≠ cq) : p ≠ q := by
  intro h
  rw [h, hq] at hp
  exact hne (Option.some.inj hp).symm

/-- C9: the outline renderer joins its parts with newlines; the lesson
list is sorted ascending by lesson-number key and is a permutation of
the input lessons whatever their order; each lesson renders as
`"Lesson <n>: <title>"`; an empty lesson list renders the explicit
no-lessons line; when the course link is not truthy no part of the
outline is a course-link line; and the stored source is exactly the
course title paired with the course-level link. -/
theorem c9_outline_render (m : CourseMeta) :
    (format_course_outline m).1 = String.intercalate "\n" (outlineParts m)
  ∧ (format_course_outline m).2
      = [⟨m.title.getD "Unknown Course", m.course_link⟩]
  ∧ List.Sorted (fun a b => lessonKey a ≤ lessonKey b)
      (sortLessons (m.lessons.getD []))
  ∧ List.Perm (sortLessons (m.lessons.getD [])) (m.lessons.getD [])
  ∧ ((m.lessons.getD []).isEmpty = false →
      lessonSection m
        = "\n**Lessons:**"
            :: (sortLessons (m.lessons.getD [])).map lessonLine)
  ∧ ((m.lessons.getD []).isEmpty = true →
      lessonSection m = ["\nNo lessons found for this course."])
  ∧ (optStrTruthy m.course_link = false →
      ∀ s : String, ("Course Link: " ++ s) ∉ outlineParts m) := by
  refine ⟨rfl, rfl, List.sorted_insertionSort _ _,
    List.perm_insertionSort _ _, ?_, ?_, ?_⟩
  · intro h; simp [lessonSection, h]
  · intro h; simp [lessonSection, h]
  · intro hlink s hmem
    have hC : ("Course Link: " ++ s).data.head? = some 'C' :=
      head?_append_of_head? _ _ _ (by decide)
    have hstar : ("**" ++ m.title.getD "Unknown Course" ++ "**").data.head?
        = some '*' :=
      head?_append_of_head? _ _ _ (head?_append_of_head? _ _ _ (by decide))
    have hinstr : ("Instructor: " ++ m.instructor.getD "").data.head?
        = some 'I' := head?_append_of_head? _ _ _ (by decide)
    have hline : ∀ l : LessonMeta, (lessonLine l).data.head? = some 'L' := by
      intro l
      exact head?_append_of_head? _ _ _
        (head?_append_of_head? _ _ _
          (head?_append_of_head? _ _ _ (by decide)))
    have hhdr : ("\n**Lessons:**" : String).data.head? = some '\n' := by
      decide
    have hnoles :
        ("\nNo lessons found for this course." : String).data.head?
          = some '\n' := by decide
    cases hI : optStrTruthy m.instructor <;>
      cases hL : (m.lessons.getD []).isEmpty <;>
      simp only [outlineParts, headerParts, lessonSection, hlink, hI, hL,
        Bool.false_eq_true, if_false, if_true, List.nil_append,
        List.append_nil, List.singleton_append, List.cons_append,
        List.mem_append, List.mem_cons, List.mem_map,
        List.not_mem_nil, or_false, false_or] at hmem
    · rcases hmem with h | h | ⟨l, _, h⟩
      · exact heads_distinct hC hstar (by decide) h
      · exact heads_distinct hC hhdr (by decide) h
      · exact heads_distinct (hline l) hC (by decide) h
    · rcases hmem with h | h
      · exact heads_distinct hC hstar (by decide) h
      · exact heads_distinct hC hnoles (by decide) h
    · rcases hmem with h | h | h | ⟨l, _, h⟩
      · exact heads_distinct hC hstar (by decide) h
      · exact heads_distinct hC hinstr (by decide) h
      · exact heads_distinct hC hhdr (by decide) h
      · exact heads_distinct (hline l) hC (by decide) h
    · rcases hmem with h | h | h
      · exact heads_distinct hC hstar (by decide) h
      · exact heads_distinct hC hinstr (by decide) h
      · exact heads_distinct hC hnoles (by decide) h

/-- Concrete course metadata with out-of-order lessons and no course
link, for the C9 witness. -/
def mC9 : CourseMeta :=
  ⟨some "T", none, some "Inst",
   some [⟨some 2, some "B", none⟩, ⟨some 1, some "A", none⟩]⟩

/-- C9 witness: the renderer evaluated on `mC9`. -/
theorem c9_outline_render_witness :
    (format_course_outline mC9).2 = [⟨"T", none⟩]
  ∧ lessonSection mC9
      = "\n**Lessons:**" :: (sortLessons (mC9.lessons.getD [])).map lessonLine
  ∧ ("Course Link: " ++ "x") ∉ outlineParts mC9 := by
  have h := c9_outline_render mC9
  exact ⟨h.2.1, h.2.2.2.2.1 (by decide), h.2.2.2.2.2.2 (by decide) "x"⟩

instance : DecidableEq Args :=
  inferInstanceAs (DecidableEq (List (String × String)))

/-- A content block of a model response: a text block or a tool-use block
(`content_block.type`, `.text`, `.name`, `.input`, `.id`). -/
structure ContentBlock where
  type : String
  text : String
  name : String
  input : Args
  id : String
deriving DecidableEq

/-- One tool-result dict
`{"type": "tool_result", "tool_use_id": ..., "content": ...}`. -/
structure ToolResult where
  tool_use_id : String
  content : String
deriving DecidableEq

/-- The possible `content` payloads of a conversation message: the plain
user query, the assistant's content blocks, or a bundle of tool results. -/
inductive MsgContent where
  | text (s : String)
  | blocks (bs : List ContentBlock)
  | results (rs : List ToolResult)
deriving DecidableEq

/-- One conversation message `{"role": ..., "content": ...}`. -/
structure Message where
  role : String
  content : MsgContent
deriving DecidableEq

/-- A model response: its stop reason and ordered content blocks. -/
structure Response where
  stop_reason : String
  content : List ContentBlock
deriving DecidableEq

/-- An advertised tool definition; the orchestrator forwards it opaquely,
so only the name field is modelled. -/
structure ToolDef where
  name : Option String
deriving DecidableEq

/-- The observable parameters of one `client.messages.create` call. -/
structure APICall where
  messages : List Message
  system : String
  tools : Option (List ToolDef)
deriving DecidableEq

/-- The observable outcome of one `generate_response` run: the returned
text (`none` models the IndexError on an empty `response.content`), the
model calls made in order, and the tool dispatches made in order. -/
structure GenTrace where
  result : Option String
  calls : List APICall
  dispatches : List (String × Args)

/-- `AIGenerator.SYSTEM_PROMPT` (static system prompt). -/
def SYSTEM_PROMPT : String := " You are an AI assistant specialized in course materials and educational content with access to comprehensive tools for course information.

Tool Usage Guidelines:
- **Course Content Search**: Use `search_course_content` for questions about specific course topics, concepts, or detailed educational materials
- **Course Outline**: Use `get_course_outline` for questions about course structure, lesson lists, or course overviews
- **Sequential tool usage**: You can make up to 2 rounds of tool calls if needed for comprehensive answers
- Use tools strategically: search first, then outline/refine as needed for complex queries
- Synthesize tool results into accurate, fact-based responses
- If tools yield no results, state this clearly without offering alternatives

Response Protocol:
- **General knowledge questions**: Answer using existing knowledge without tools
- **Course content questions**: Use search tool first, then answer
- **Course structure/outline questions**: Use outline tool first, then answer
- **No meta-commentary**:
 - Provide direct answers only â€” no reasoning process, tool explanations, or question-type analysis
 - Do not mention \"based on the search results\" or \"using the outline tool\"

For course outline responses, always include:
1. Course title
2. Course link (if available)
3. Complete lesson list with lesson numbers and titles

All responses must be:
1. **Brief, Concise and focused** - Get to the point quickly
2. **Educational** - Maintain instructional value
3. **Clear** - Use accessible language
4. **Example-supported** - Include relevant examples when they aid understanding
Provide only the direct answer to what was asked.
"

/-- `AIGenerator._build_system_content`: append the rendered history
block when the history string is truthy. -/
def build_system_content (conversation_history : Option String) : String :=
  if optStrTruthy conversation_history then
    SYSTEM_PROMPT ++ "\n\nPrevious conversation:\n"
      ++ conversation_history.getD ""
  else SYSTEM_PROMPT

/-- The tool-use blocks of a content list, in order. -/
def toolUseBlocks (bs : List ContentBlock) : List ContentBlock :=
  bs.filter fun cb => cb.type == "tool_use"

/-- `AIGenerator._execute_tools_and_update_messages`: append the
assistant's tool-requesting message, dispatch every tool-use block in
order collecting one result each (exceptions contained, see
`toolResultContent`), then append the single bundled results message
(only when at least one result was produced). -/
def execute_tools_and_update_messages (response : Response)
    (messages : List Message) (tm : ToolManager) : List Message :=
  let withAssistant :=
    messages ++ [⟨"assistant", MsgContent.blocks response.content⟩]
  let tool_results : List ToolResult := response.content.filterMap fun cb =>
    if cb.type == "tool_use" then
      some ⟨cb.id, toolResultContent tm cb.name cb.input⟩
    else none
  if tool_results.isEmpty then withAssistant
  else withAssistant ++ [⟨"user", MsgContent.results tool_results⟩]

/-- The dispatches `(content_block.name, content_block.input)` performed
while processing one tool-requesting response. -/
def dispatchedCalls (response : Response) : List (String × Args) :=
  (toolUseBlocks response.content).map fun cb => (cb.name, cb.input)

/-- `response.content[0].text`; `none` models the IndexError raised on an
empty content list. -/
def responseText (r : Response) : Option String :=
  r.content.head?.map ContentBlock.text

/-- `AIGenerator.generate_response`, the round-bounded loop of
ai_generator.py lines 127-154 unrolled (the `for round_num in range(1, 3)`
body runs at most twice and every round-2 path returns).  The model
client is the oracle `oracle`, whose `i`-th value is the response to the
`i`-th API call.  The Python round-1 guard
`response.stop_reason != "tool_use" or not tool_manager` is split into
the `tool_manager` match and the stop-reason test; both orders return
round 1's text with a single logged call.  Tools are offered on the
first call only (`current_tools = tools if round_num == 1 else None`). -/
def generate_response (oracle : Nat → Response) (query : String)
    (conversation_history : Option String) (tools : Option (List ToolDef))
    (tool_manager : Option ToolManager) : GenTrace :=
  let system_content := build_system_content conversation_history
  let messages1 : List Message := [⟨"user", MsgContent.text query⟩]
  let r1 := oracle 0
  let call1 : APICall := ⟨messages1, system_content, tools⟩
  match tool_manager with
  | none => ⟨responseText r1, [call1], []⟩
  | some tm =>
    if r1.stop_reason != "tool_use" then ⟨responseText r1, [call1], []⟩
    else
      let messages2 := execute_tools_and_update_messages r1 messages1 tm
      let r2 := oracle 1
      let call2 : APICall := ⟨messages2, system_content, none⟩
      if r2.stop_reason != "tool_use" then
        ⟨responseText r2, [call1, call2], dispatchedCalls r1⟩
      else
        let messages3 := execute_tools_and_update_messages r2 messages2 tm
        let r3 := oracle 2
        let call3 : APICall := ⟨messages3, system_content, none⟩
        ⟨responseText r3, [call1, call2, call3],
          dispatchedCalls r1 ++ dispatchedCalls r2⟩

/-- Guarded filterMap over content blocks is map over the filtered
tool-use blocks. -/
theorem filterMap_toolResults (bs : List ContentBlock)
    (g : ContentBlock → ToolResult) :
    (bs.filterMap fun cb =>
        if cb.type == "tool_use" then some (g cb) else none)
      = (toolUseBlocks bs).map g := by
  unfold toolUseBlocks
  induction bs with
  | nil => rfl
  | cons b bs ih =>
      simp only [beq_iff_eq] at ih
      by_cases hb : b.type = "tool_use" <;>
        simp [List.filterMap_cons, List.filter_cons, hb, ih]

/-- C1: `generate_response` makes at most 3 model calls and, whenever the
model's responses carry at least one content block, always returns a
text value — no unbounded tool-calling loop. -/
theorem c1_bounded_calls_and_text (oracle : Nat → Response) (query : String)
    (hist : Option String) (tools : Option (List ToolDef))
    (tmOpt : Option ToolManager)
    (hwf : ∀ i, (oracle i).content ≠ []) :
    (generate_response oracle query hist tools tmOpt).calls.length ≤ 3
  ∧ ∃ t, (generate_response oracle query hist tools tmOpt).result
      = some t := by
  have htext : ∀ i, ∃ t, responseText (oracle i) = some t := by
    intro i
    cases hc : (oracle i).content with
    | nil => exact absurd hc (hwf i)
    | cons b bs => exact ⟨b.text, by simp [responseText, hc]⟩
  unfold generate_response
  cases tmOpt with
  | none => exact ⟨by simp, htext 0⟩
  | some tm =>
    dsimp only
    split
    · exact ⟨by simp, htext 0⟩
    · split
      · exact ⟨by simp, htext 1⟩
      · exact ⟨by simp, htext 2⟩

/-- Oracle answering every call with the same tool-use response, for the
C1 witness: even a model that requests tools forever gets 3 calls. -/
def oracleC1 : Nat → Response :=
  fun _ => ⟨"tool_use",
    [⟨"tool_use", "", "search_course_content", [("query", "Python")], "t1"⟩]⟩

/-- C1 witness: the bound evaluated against `oracleC1`. -/
theorem c1_bounded_calls_and_text_witness :
    (generate_response oracleC1 "q" none (some []) (some ⟨[]⟩)).calls.length
        ≤ 3
  ∧ ∃ t, (generate_response oracleC1 "q" none (some []) (some ⟨[]⟩)).result
      = some t :=
  c1_bounded_calls_and_text oracleC1 "q" none (some []) (some ⟨[]⟩)
    (fun i => by simp [oracleC1])

/-- C2: every model call after the first is made with `tools = None`;
only round 1 may carry tool definitions. -/
theorem c2_tools_only_on_first_call (oracle : Nat → Response)
    (query : String) (hist : Option String) (tools : Option (List ToolDef))
    (tmOpt : Option ToolManager) :
    (((generate_response oracle query hist tools tmOpt).calls.drop 1).all
      fun c => c.tools.isNone) = true := by
  unfold generate_response
  cases tmOpt with
  | none => rfl
  | some tm =>
    dsimp only
    split
    · rfl
    · split <;> rfl

/-- C4: a response with at least one tool-use block yields exactly the
old messages plus the assistant's tool-requesting message plus ONE
results message bundling one `ToolResult` per tool-use block, in block
order, each echoing its block's id. -/
theorem c4_tool_results_bundling (response : Response)
    (messages : List Message) (tm : ToolManager)
    (h : toolUseBlocks response.content ≠ []) :
    execute_tools_and_update_messages response messages tm
      = messages
        ++ [⟨"assistant", MsgContent.blocks response.content⟩,
            ⟨"user", MsgContent.results
              ((toolUseBlocks response.content).map
                fun cb => ⟨cb.id, toolResultContent tm cb.name cb.input⟩)⟩]
  ∧ ((toolUseBlocks response.content).map
      (fun cb =>
        (⟨cb.id, toolResultContent tm cb.name cb.input⟩ : ToolResult))).length
      = (toolUseBlocks response.content).length
  ∧ ∀ k : Nat,
      (((toolUseBlocks response.content).map
        (fun cb =>
          (⟨cb.id, toolResultContent tm cb.name cb.input⟩ : ToolResult))).get?
            k).map ToolResult.tool_use_id
        = ((toolUseBlocks response.content).get? k).map ContentBlock.id := by
  refine ⟨?_, by simp, ?_⟩
  · unfold execute_tools_and_update_messages
    rw [filterMap_toolResults response.content
      (fun cb => ⟨cb.id, toolResultContent tm cb.name cb.input⟩)]
    have hne : ((toolUseBlocks response.content).map
        (fun cb =>
          (⟨cb.id, toolResultContent tm cb.name cb.input⟩ :
            ToolResult))).isEmpty = false := by
      simp [List.isEmpty_iff, h]
    simp [hne]
  · intro k
    simp only [List.get?_eq_getElem?, List.getElem?_map]
    cases (toolUseBlocks response.content)[k]? <;> rfl

/-- A response carrying two tool-use blocks around a text block, for the
C4 witness. -/
def respC4 : Response :=
  ⟨"tool_use",
   [⟨"tool_use", "", "alpha", [("query", "x")], "id1"⟩,
    ⟨"text", "thinking", "", [], ""⟩,
    ⟨"tool_use", "", "beta", [], "id2"⟩]⟩

/-- C4 witness: the bundling evaluated on `respC4` against an empty
registry. -/
theorem c4_tool_results_bundling_witness :
    execute_tools_and_update_messages respC4
        [⟨"user", MsgContent.text "q"⟩] ⟨[]⟩
      = [⟨"user", MsgContent.text "q"⟩]
        ++ [⟨"assistant", MsgContent.blocks respC4.content⟩,
            ⟨"user", MsgContent.results
              ((toolUseBlocks respC4.content).map
                fun cb =>
                  ⟨cb.id, toolResultContent ⟨[]⟩ cb.name cb.input⟩)⟩]
  ∧ ((toolUseBlocks respC4.content).map
      (fun cb =>
        (⟨cb.id, toolResultContent ⟨[]⟩ cb.name cb.input⟩ :
          ToolResult))).length
      = (toolUseBlocks respC4.content).length :=
  ⟨(c4_tool_results_bundling respC4 [⟨"user", MsgContent.text "q"⟩] ⟨[]⟩
      (by decide)).1,
   (c4_tool_results_bundling respC4 [⟨"user", MsgContent.text "q"⟩] ⟨[]⟩
      (by decide)).2.1⟩

/-- C5: when round 1's response does not request tool use, or no tool
manager was supplied, exactly one model call is made, its text is
returned unchanged, and no tool is dispatched. -/
theorem c5_no_tool_use_single_call (oracle : Nat → Response)
    (query : String) (hist : Option String) (tools : Option (List ToolDef))
    (tmOpt : Option ToolManager)
    (h : (oracle 0).stop_reason ≠ "tool_use" ∨ tmOpt = none) :
    (generate_response oracle query hist tools tmOpt).result
        = responseText (oracle 0)
  ∧ (generate_response oracle query hist tools tmOpt).calls.length = 1
  ∧ (generate_response oracle query hist tools tmOpt).dispatches = [] := by
  unfold generate_response
  cases tmOpt with
  | none => exact ⟨rfl, rfl, rfl⟩
  | some tm =>
    have h1 : (oracle 0).stop_reason ≠ "tool_use" := by
      rcases h with h | h
      · exact h
      · exact Option.noConfusion h
    simp [bne_iff_ne, h1]

/-- Oracle answering with a direct text response, for the C5 witness. -/
def oracleC5 : Nat → Response :=
  fun _ => ⟨"end_turn", [⟨"text", "direct answer", "", [], ""⟩]⟩

/-- C5 witness: the single-call path evaluated against `oracleC5` with
tools and a manager supplied. -/
theorem c5_no_tool_use_single_call_witness :
    (generate_response oracleC5 "q" none (some []) (some ⟨[]⟩)).result
        = responseText (oracleC5 0)
  ∧ (generate_response oracleC5 "q" none (some []) (some ⟨[]⟩)).calls.length
        = 1
  ∧ (generate_response oracleC5 "q" none (some []) (some ⟨[]⟩)).dispatches
        = [] :=
  c5_no_tool_use_single_call oracleC5 "q" none (some []) (some ⟨[]⟩)
    (Or.inl (by decide))
